import Mathlib

/-!
Shallow embedding of the widget layer of masonry-rs (the two source files
`src/widget/widget.rs` and `widget-cruncher/src/widget/label.rs`), together
with theorems settling the specification claims about it.

Floating-point dimensions (`f64`) are modelled by `ℚ`; the `f64::INFINITY`
wrap width is modelled by a dedicated constructor of `WrapWidth`.
Machine integers (`u64`, `u16`) are modelled by `ℕ` with explicit bounds.
Panics (`todo!()`) are modelled by `Except.error`.
-/

namespace Masonry

/-! ## Geometry primitives (kurbo `Point`, `Size`, `Rect`) -/

/-- A 2D point, modelling `kurbo::Point` with `ℚ` coordinates. -/
structure Point where
  x : ℚ
  y : ℚ
deriving DecidableEq, Repr

/-- A 2D size, modelling `kurbo::Size` with `ℚ` dimensions. -/
structure Size where
  width : ℚ
  height : ℚ
deriving DecidableEq, Repr

/-- An axis-aligned rectangle, modelling `kurbo::Rect`. -/
structure Rect where
  x0 : ℚ
  y0 : ℚ
  x1 : ℚ
  y1 : ℚ
deriving DecidableEq, Repr

/-- `kurbo::Rect::contains`: half-open containment test
`point.x >= x0 && point.x < x1 && point.y >= y0 && point.y < y1`. -/
def Rect.contains (r : Rect) (p : Point) : Bool :=
  decide (r.x0 ≤ p.x) && decide (p.x < r.x1) &&
  decide (r.y0 ≤ p.y) && decide (p.y < r.y1)

/-- `kurbo::Size::to_rect`: the rectangle from the origin with this size. -/
def Size.to_rect (s : Size) : Rect :=
  { x0 := 0, y0 := 0, x1 := s.width, y1 := s.height }

/-- `f64::max(lo).min(hi)` as used by `kurbo::Size::clamp`. -/
def clampQ (x lo hi : ℚ) : ℚ :=
  min (max x lo) hi

/-- `kurbo::Size::clamp(min, max)`: clamp each dimension. -/
def Size.clamp (s lo hi : Size) : Size :=
  { width := clampQ s.width lo.width hi.width
    height := clampQ s.height lo.height hi.height }

/-! ## WidgetId allocation (`src/widget/widget.rs`) -/

/-- `u64::max_value()` = 2^64 - 1. -/
def U64_MAX : ℕ := 18446744073709551615

/-- `WidgetId`: a 64-bit non-zero identifier, modelled as the raw `ℕ` value
(`to_raw`). -/
abbrev WidgetId := ℕ

/-- `WidgetId::reserved(raw)`: maps a `u16` into the id space from the top:
`u64::max_value() - raw`. -/
def WidgetId.reserved (raw : ℕ) : WidgetId :=
  U64_MAX - raw

/-- Modelled from the spec: `druid_shell::Counter` (its source is not in this
repository). Per the spec it is a monotonically increasing process-wide
counter starting above zero that cannot fail; `Counter.nth i` is the value
produced by the i-th (0-indexed) call to `next_nonzero()`: the counter starts
at 1 and increments by one on each call. -/
def Counter.nth (i : ℕ) : ℕ :=
  i + 1

/-- `WidgetId::next()`: the id returned by the i-th call within one process
lifetime, drawn from the shared `WIDGET_ID_COUNTER`. -/
def WidgetId.next (i : ℕ) : WidgetId :=
  Counter.nth i

/-! ## Hit testing (`Widget::get_child_at_pos`) -/

/-- Cached per-widget state exposed through `WidgetRef::state()`; the claims
only need the last-computed layout rectangle (in parent coordinates). -/
structure WidgetState where
  layout_rect : Rect
deriving DecidableEq, Repr

/-- A (type-erased) reference to a child widget; `tag` distinguishes
children so that overlapping-rectangle tie-breaking is observable. -/
structure WidgetRef where
  tag : ℕ
  state : WidgetState
deriving DecidableEq, Repr

/-- `Widget::get_child_at_pos`: the first direct child (in `children()`
enumeration order) whose cached layout rectangle contains the point. -/
def get_child_at_pos (children : List WidgetRef) (pos : Point) :
    Option WidgetRef :=
  children.find? (fun child => child.state.layout_rect.contains pos)

/-! ## Label widget (`widget-cruncher/src/widget/label.rs`) -/

/-- `LABEL_X_PADDING`: padding between the edges of the widget and the text. -/
def LABEL_X_PADDING : ℚ := 2

/-- An opaque concrete color value (`druid::Color`). -/
structure Color where
  rgba : ℕ
deriving DecidableEq, Repr

/-- The theme keys used by the label (`crate::theme`). -/
inductive ThemeKey where
  | TEXT_COLOR
  | DISABLED_TEXT_COLOR
deriving DecidableEq, Repr

/-- `KeyOrValue<Color>`: either a concrete color or a theme-key indirection. -/
inductive KeyOrValue where
  | Concrete (c : Color)
  | Key (k : ThemeKey)
deriving DecidableEq, Repr

/-- The environment passed to widget methods; its content is irrelevant to
every claim (the label's `resolve` ignores it). -/
structure Env where
deriving DecidableEq, Repr

/-- An embedded text-link handle; `command` is the opaque command the link
would dispatch. -/
structure Link where
  command : ℕ
deriving DecidableEq, Repr

/-- `LineBreaking`: options for handling lines that are too wide. -/
inductive LineBreaking where
  | WordWrap
  | Clip
  | Overflow
deriving DecidableEq, Repr

/-- Modelled from the spec: the state of `TextLayout<ArcStr>` (the text-layout
engine, external to this repository) that the label reads and writes — the
current text, the cached color parameter, and the engine's screen-position to
embedded-link resolution (`link_for_pos`). -/
structure TextLayout where
  text : String
  color : KeyOrValue
  link_for_pos : Point → Option Link

/-- `TextLayout::set_text`. -/
def TextLayout.set_text (l : TextLayout) (t : String) : TextLayout :=
  { l with text := t }

/-- `TextLayout::set_text_color`. -/
def TextLayout.set_text_color (l : TextLayout) (c : KeyOrValue) : TextLayout :=
  { l with color := c }

/-- `RawLabel`: a widget that displays text data. -/
structure RawLabel where
  layout : TextLayout
  line_break_mode : LineBreaking
  disabled : Bool
  default_text_color : KeyOrValue

/-- `RawLabel::new`: overflow line-breaking, not disabled, default text color
the `TEXT_COLOR` theme key; the fresh `TextLayout` starts with empty text, the
theme text color and no links (its defaults are external to this repository). -/
def RawLabel.new : RawLabel :=
  { layout := { text := "", color := KeyOrValue.Key ThemeKey.TEXT_COLOR
                link_for_pos := fun _ => none }
    line_break_mode := LineBreaking.Overflow
    disabled := false
    default_text_color := KeyOrValue.Key ThemeKey.TEXT_COLOR }

/-- `RawLabel::set_text`: forwards to the layout. -/
def RawLabel.set_text (s : RawLabel) (t : String) : RawLabel :=
  { s with layout := s.layout.set_text t }

/-- `RawLabel::set_text_color`: updates the layout's color only when the
label is not disabled, and always records the new default. -/
def RawLabel.set_text_color (s : RawLabel) (color : KeyOrValue) : RawLabel :=
  let s1 := if !s.disabled then { s with layout := s.layout.set_text_color color } else s
  { s1 with default_text_color := color }

/-- `RawLabel::set_line_break_mode`. -/
def RawLabel.set_line_break_mode (s : RawLabel) (mode : LineBreaking) : RawLabel :=
  { s with line_break_mode := mode }

/-! ### Events (`RawLabel::on_event`) -/

/-- The mouse events the label handles; `Other` stands for every event kind
matched by the wildcard arm. -/
inductive Event where
  | MouseUp (pos : Point)
  | MouseMove (pos : Point)
  | Other

/-- Side effects requested through the `EventCtx` during `on_event`. -/
inductive EventEffect where
  | setCursorPointer
  | clearCursor
  | submitCommand (c : ℕ)
deriving DecidableEq, Repr

/-- `RawLabel::on_event`. A `MouseUp` whose padding-adjusted position resolves
to a link reaches `todo!()`, modelled as `Except.error` with the Rust
`todo!` panic message; every other path returns the (unchanged) widget state
together with the cursor effects requested from the context. -/
def RawLabel.on_event (s : RawLabel) (event : Event) :
    Except String (RawLabel × List EventEffect) :=
  match event with
  | Event.MouseUp e =>
      let pos : Point := ⟨e.x - LABEL_X_PADDING, e.y - 0⟩
      match s.layout.link_for_pos pos with
      | some _ => Except.error "not yet implemented"
      | none => Except.ok (s, [])
  | Event.MouseMove e =>
      let pos : Point := ⟨e.x - LABEL_X_PADDING, e.y - 0⟩
      match s.layout.link_for_pos pos with
      | some _ => Except.ok (s, [EventEffect.setCursorPointer])
      | none => Except.ok (s, [EventEffect.clearCursor])
  | Event.Other => Except.ok (s, [])

/-! ### Lifecycle (`RawLabel::lifecycle`) -/

/-- The lifecycle events; `Other` stands for every event kind matched by the
wildcard arm. -/
inductive LifeCycle where
  | DisabledChanged (disabled : Bool)
  | Other
deriving DecidableEq, Repr

/-- `RawLabel::lifecycle`: on `DisabledChanged` the layout color becomes the
disabled theme key or the stored default, and a re-layout is requested (the
returned `Bool` records `ctx.request_layout()`); all other events are ignored. -/
def RawLabel.lifecycle (s : RawLabel) (event : LifeCycle) : RawLabel × Bool :=
  match event with
  | LifeCycle.DisabledChanged disabled =>
      let color := if disabled then KeyOrValue.Key ThemeKey.DISABLED_TEXT_COLOR
                   else s.default_text_color
      ({ s with layout := s.layout.set_text_color color }, true)
  | LifeCycle.Other => (s, false)

/-! ### Layout (`RawLabel::layout`) -/

/-- `BoxConstraints`: a min/max size range. -/
structure BoxConstraints where
  min : Size
  max : Size
deriving DecidableEq, Repr

/-- `BoxConstraints::constrain`: clamp a size into the constraint
(`size.clamp(self.min, self.max)`). -/
def BoxConstraints.constrain (bc : BoxConstraints) (s : Size) : Size :=
  s.clamp bc.min bc.max

/-- A wrap width handed to the text-layout engine: a finite `f64` or
`f64::INFINITY`. -/
inductive WrapWidth where
  | fin (w : ℚ)
  | inf
deriving DecidableEq, Repr

/-- The measurements the text-layout engine reports (`TextMetrics`): the
laid-out text size and the first-line baseline distance. -/
structure TextMetrics where
  size : Size
  first_baseline : ℚ
deriving DecidableEq, Repr

/-- What one call to `RawLabel::layout` did: the wrap width handed to the
engine via `set_wrap_width`, the baseline offset reported to the context, and
the returned size. -/
structure LayoutResult where
  wrapWidth : WrapWidth
  baselineOffset : ℚ
  size : Size
deriving DecidableEq, Repr

/-- `RawLabel::layout` (named `widgetLayout` because the Lean structure field
`layout` shadows the method name). The text-layout engine (the composition of
`set_wrap_width`, `rebuild_if_needed` and `layout_metrics`, external to this
repository) is abstracted as `engine`, mapping the wrap width it was given to
the metrics it reports. -/
def RawLabel.widgetLayout (s : RawLabel) (engine : WrapWidth → TextMetrics)
    (bc : BoxConstraints) : LayoutResult :=
  let width : WrapWidth :=
    match s.line_break_mode with
    | LineBreaking.WordWrap => WrapWidth.fin (bc.max.width - LABEL_X_PADDING * 2)
    | _ => WrapWidth.inf
  let text_metrics := engine width
  { wrapWidth := width
    baselineOffset := text_metrics.size.height - text_metrics.first_baseline
    size := bc.constrain ⟨text_metrics.size.width + 2 * LABEL_X_PADDING,
                          text_metrics.size.height⟩ }

/-! ### Paint (`RawLabel::paint`) -/

/-- Operations recorded against the render surface, in issue order. -/
inductive PaintOp where
  | clip (r : Rect)
  | drawText (text : String) (origin : Point)
deriving DecidableEq, Repr

/-- `RawLabel::paint`: in `Clip` mode first clip to the widget's painted size
(`ctx.size()`), then in every mode draw the layout's text at the padded
origin `(LABEL_X_PADDING, 0)` via `draw_at`. -/
def RawLabel.paint (s : RawLabel) (ctxSize : Size) : List PaintOp :=
  let origin : Point := ⟨LABEL_X_PADDING, 0⟩
  (if s.line_break_mode = LineBreaking.Clip
   then [PaintOp.clip ctxSize.to_rect] else [])
  ++ [PaintOp.drawText s.layout.text origin]

/-! ### Text sources (`Static`, `LabelText`) and the `Label` adapter -/

/-- `Static`: static text plus whether `resolve` has been called yet. -/
structure Static where
  string : String
  resolved : Bool
deriving DecidableEq, Repr

/-- `Static::new`. -/
def Static.new (s : String) : Static :=
  { string := s, resolved := false }

/-- `Static::resolve`: true exactly on the first call. -/
def Static.resolve (s : Static) : Bool × Static :=
  let is_first_call := !s.resolved
  (is_first_call, { s with resolved := true })

/-- `LabelText`: the text for a `Label` (only the static variant exists in
this revision). -/
inductive LabelText where
  | Static (s : Static)
deriving DecidableEq, Repr

/-- `From<&str> for LabelText` (likewise `From<String>` / `From<ArcStr>`):
wrap the string in a fresh `Static`. -/
def LabelText.fromStr (s : String) : LabelText :=
  LabelText.Static (Static.new s)

/-- `LabelText::display_text`: the current resolved text. -/
def LabelText.display_text : LabelText → String
  | LabelText.Static s => s.string

/-- `LabelText::resolve`: returns whether the string has changed, alongside
the updated source (`&mut self` made explicit). -/
def LabelText.resolve (t : LabelText) (_env : Env) : Bool × LabelText :=
  match t with
  | LabelText.Static s =>
      let r := s.resolve
      (r.1, LabelText.Static r.2)

/-- `Label`: the adapter that manages an inner `RawLabel`. -/
structure Label where
  label : RawLabel
  current_text : String
  text : LabelText
  text_should_be_updated : Bool

/-- `Label::new`: resolve the display text, seed a fresh `RawLabel` with it,
and start with the stale-text flag clear. -/
def Label.new (text : LabelText) : Label :=
  let current_text := text.display_text
  let label := RawLabel.new.set_text current_text
  { text := text
    current_text := current_text
    label := label
    text_should_be_updated := false }

/-- `Label::text`: the current value of the label's text (named `getText`
because the Lean structure field `text` shadows the method name). -/
def Label.getText (l : Label) : String :=
  l.text.display_text

/-- `Label::set_text`: store the new source and flag that the text should be
updated, without touching the inner `RawLabel`. -/
def Label.set_text (l : Label) (text : LabelText) : Label :=
  { l with text := text, text_should_be_updated := true }

/-- `Label::paint` (`impl Widget for Label`): emit the stale-text diagnostic
(`tracing::warn!`, returned as the `Bool`) when the flag is set, then forward
to the inner `RawLabel`'s paint. -/
def Label.paint (l : Label) (ctxSize : Size) : Bool × List PaintOp :=
  (l.text_should_be_updated, l.label.paint ctxSize)

/-! ## Concrete fixtures used by witnesses and the counterexample -/

/-- A concrete link. -/
def link0 : Link := ⟨7⟩

/-- The screen region of `link0` inside the laid-out text. -/
def linkRect0 : Rect := ⟨0, 0, 50, 10⟩

/-- A concrete link-resolution map: `link0` occupies `linkRect0`. -/
def linkAt0 (p : Point) : Option Link :=
  if linkRect0.contains p then some link0 else none

/-- A concrete `RawLabel` whose text layout contains `link0`. -/
def s1 : RawLabel :=
  { layout := { text := "hello", color := KeyOrValue.Key ThemeKey.TEXT_COLOR
                link_for_pos := linkAt0 }
    line_break_mode := LineBreaking.Overflow
    disabled := false
    default_text_color := KeyOrValue.Key ThemeKey.TEXT_COLOR }

/-- A fresh `RawLabel` switched to word-wrap mode. -/
def sWrap : RawLabel :=
  RawLabel.new.set_line_break_mode LineBreaking.WordWrap

/-- A fresh `RawLabel` switched to clip mode. -/
def sClip : RawLabel :=
  (RawLabel.new.set_text "clipped").set_line_break_mode LineBreaking.Clip

/-- A fresh `RawLabel` with the disabled flag set. -/
def sDis : RawLabel :=
  { RawLabel.new with disabled := true }

/-- A concrete text engine: constant metrics 100×40 with first baseline 30. -/
def engine0 : WrapWidth → TextMetrics :=
  fun _ => ⟨⟨100, 40⟩, 30⟩

/-- A concrete box constraint: min 0×0, max 200×100. -/
def bc0 : BoxConstraints := ⟨⟨0, 0⟩, ⟨200, 100⟩⟩

/-- A child whose rectangle is far from the probe point. -/
def cOut : WidgetRef := ⟨0, ⟨⟨100, 100, 110, 110⟩⟩⟩

/-- A child whose rectangle contains the probe point. -/
def cA : WidgetRef := ⟨1, ⟨⟨0, 0, 10, 10⟩⟩⟩

/-- A second child whose rectangle also contains the probe point
(overlapping `cA`). -/
def cB : WidgetRef := ⟨2, ⟨⟨5, 0, 15, 10⟩⟩⟩

/-- The probe point, inside both `cA`'s and `cB`'s rectangles. -/
def p7 : Point := ⟨7, 5⟩

/-! ## Claim theorems -/

/-- C2: for every `LabelText` built from a static string, `resolve` returns
`true` on the first call and `false` on every subsequent call (i.e. on any
state that has already been resolved once), and no call to `resolve` mutates
the stored string. -/
theorem labeltext_static_resolve_spec (s : String) (env env2 : Env)
    (lt : LabelText) :
    ((LabelText.fromStr s).resolve env).1 = true ∧
    ((lt.resolve env).2.resolve env2).1 = false ∧
    (lt.resolve env).2.display_text = lt.display_text := by
  refine ⟨rfl, ?_, ?_⟩ <;> cases lt <;> rfl

/-- C3: `WidgetId::reserved(raw)` equals `u64::MAX - raw`, is injective on the
`u16` range, never yields zero, and is disjoint from every id returned by
`next()` while the count of auto-generated ids stays below `2^64 - 2^16`. -/
theorem widget_id_reserved_spec (r1 r2 : ℕ) (h1 : r1 < 65536) (h2 : r2 < 65536)
    (n i : ℕ) (hn : n < 18446744073709551616 - 65536) (hi : i < n) :
    WidgetId.reserved r1 = U64_MAX - r1 ∧
    (r1 ≠ r2 → WidgetId.reserved r1 ≠ WidgetId.reserved r2) ∧
    WidgetId.reserved r1 ≠ 0 ∧
    WidgetId.next i ≠ WidgetId.reserved r1 := by
  refine ⟨rfl, ?_, ?_, ?_⟩
  · intro hne
    show (U64_MAX - r1 : ℕ) ≠ (U64_MAX - r2 : ℕ)
    unfold U64_MAX
    omega
  · show (U64_MAX - r1 : ℕ) ≠ (0 : ℕ)
    unfold U64_MAX
    omega
  · show (Counter.nth i : ℕ) ≠ (U64_MAX - r1 : ℕ)
    unfold Counter.nth U64_MAX
    omega

/-- Witness for C3 at `raw = 3`, `raw' = 9`, `n = 10`, `i = 5`. -/
theorem widget_id_reserved_witness :
    WidgetId.next 5 ≠ WidgetId.reserved 3 :=
  (widget_id_reserved_spec 3 9 (by omega) (by omega) 10 5 (by omega)
    (by omega)).2.2.2

/-- C4: ids returned by distinct calls to `WidgetId::next()` are pairwise
distinct and non-zero; the backing counter is strictly monotone and starts
above zero. -/
theorem widget_id_next_spec (i j : ℕ) (h : i ≠ j) :
    WidgetId.next i ≠ WidgetId.next j ∧
    WidgetId.next i ≠ 0 ∧
    (i < j → WidgetId.next i < WidgetId.next j) ∧
    0 < WidgetId.next 0 :=
  ⟨fun hc => h (Nat.succ.inj hc), Nat.succ_ne_zero i,
   fun hij => Nat.succ_lt_succ hij, Nat.succ_pos 0⟩

/-- Witness for C4 at calls 0 and 1. -/
theorem widget_id_next_witness :
    WidgetId.next 0 ≠ WidgetId.next 1 :=
  (widget_id_next_spec 0 1 (by omega)).1

/-- C1 counterexample: a concrete `MouseUp` at `(5, 5)` whose padding-adjusted
position `(3, 5)` resolves to `link0` does NOT leave `on_event` a no-op — the
call reaches `todo!()` and panics (modelled as `Except.error` with the Rust
`todo!` message), refuting the claim that it returns normally with the state
unchanged. -/
theorem raw_label_mouseup_link_cex :
    s1.layout.link_for_pos ⟨5 - LABEL_X_PADDING, 5 - 0⟩ = some link0 ∧
    s1.on_event (Event.MouseUp ⟨5, 5⟩) = Except.error "not yet implemented" := by
  have hc : linkRect0.contains ⟨5 - LABEL_X_PADDING, 5⟩ = true := by
    simp only [Rect.contains, linkRect0, LABEL_X_PADDING]
    norm_num
  have hlink : s1.layout.link_for_pos ⟨5 - LABEL_X_PADDING, 5 - 0⟩ = some link0 := by
    show linkAt0 _ = _
    simp [linkAt0, hc]
  refine ⟨hlink, ?_⟩
  simp only [RawLabel.on_event]
  rw [hlink]

/-- C1 (amended): a `MouseUp` whose padding-adjusted position is over a link
makes `RawLabel::on_event` panic via `todo!()` (no command is submitted and no
normal result is produced); a `MouseUp` whose adjusted position is over no
link is a genuine no-op — no panic, no effects, state unchanged. -/
theorem raw_label_mouseup_spec (s : RawLabel) (e : Point) :
    (s.layout.link_for_pos ⟨e.x - LABEL_X_PADDING, e.y - 0⟩ = none →
      s.on_event (Event.MouseUp e) = Except.ok (s, [])) ∧
    (∀ l, s.layout.link_for_pos ⟨e.x - LABEL_X_PADDING, e.y - 0⟩ = some l →
      s.on_event (Event.MouseUp e) = Except.error "not yet implemented") := by
  constructor
  · intro h
    simp only [sub_zero] at h
    simp [RawLabel.on_event, h]
  · intro l h
    simp only [sub_zero] at h
    simp [RawLabel.on_event, h]

/-- Witness for the amended C1: a `MouseUp` at `(100, 100)` (over no link of
`s1`) returns the unchanged state and no effects. -/
theorem raw_label_mouseup_witness :
    s1.on_event (Event.MouseUp ⟨100, 100⟩) = Except.ok (s1, []) :=
  (raw_label_mouseup_spec s1 ⟨100, 100⟩).1 (by
    have hc : linkRect0.contains ⟨100 - LABEL_X_PADDING, 100⟩ = false := by
      simp only [Rect.contains, linkRect0, LABEL_X_PADDING]
      norm_num
    show linkAt0 _ = _
    simp [linkAt0, hc])

/-- C5: laying out a `RawLabel` in word-wrap mode hands the text engine the
wrap width `max - 2 * LABEL_X_PADDING`; in the other modes it hands it the
infinite wrap width; in every mode the returned size is the measured text
width plus the horizontal padding on both sides, clamped into the constraint,
so its width never exceeds the constraint's max width. -/
theorem raw_label_layout_spec (s : RawLabel) (engine : WrapWidth → TextMetrics)
    (bc : BoxConstraints) :
    (s.line_break_mode = LineBreaking.WordWrap →
      (s.widgetLayout engine bc).wrapWidth
        = WrapWidth.fin (bc.max.width - 2 * LABEL_X_PADDING)) ∧
    (s.line_break_mode ≠ LineBreaking.WordWrap →
      (s.widgetLayout engine bc).wrapWidth = WrapWidth.inf) ∧
    (s.widgetLayout engine bc).size.width ≤ bc.max.width ∧
    (s.widgetLayout engine bc).size
      = bc.constrain ⟨(engine (s.widgetLayout engine bc).wrapWidth).size.width
            + 2 * LABEL_X_PADDING,
          (engine (s.widgetLayout engine bc).wrapWidth).size.height⟩ := by
  refine ⟨?_, ?_, ?_, ?_⟩
  · intro h
    simp [RawLabel.widgetLayout, h]
    ring
  · intro h
    cases hm : s.line_break_mode
    · exact absurd hm h
    · simp [RawLabel.widgetLayout, hm]
    · simp [RawLabel.widgetLayout, hm]
  · cases hm : s.line_break_mode <;>
      simp [RawLabel.widgetLayout, hm, BoxConstraints.constrain, Size.clamp,
        clampQ, min_le_right]
  · cases hm : s.line_break_mode <;> rfl

/-- Witness for C5: with max width 200 in word-wrap mode the engine receives
wrap width `200 - 2 * LABEL_X_PADDING = 196`, and the returned width stays
within 200. -/
theorem raw_label_layout_witness :
    (sWrap.widgetLayout engine0 bc0).wrapWidth
      = WrapWidth.fin (200 - 2 * LABEL_X_PADDING) ∧
    (sWrap.widgetLayout engine0 bc0).size.width ≤ 200 :=
  ⟨(raw_label_layout_spec sWrap engine0 bc0).1 rfl,
   (raw_label_layout_spec sWrap engine0 bc0).2.2.1⟩

/-- C6: calling `Label::set_text` and painting without an intervening
update makes the paint emit the stale-text diagnostic, and the string handed
to the draw operation is the previously displayed text, not the newly set
one. -/
theorem label_stale_text_paint (t0 t1 : LabelText) (sz : Size) :
    (((Label.new t0).set_text t1).paint sz).1 = true ∧
    ((Label.new t0).set_text t1).label = (Label.new t0).label ∧
    (((Label.new t0).set_text t1).paint sz).2.getLast?
      = some (PaintOp.drawText t0.display_text ⟨LABEL_X_PADDING, 0⟩) ∧
    (t1.display_text ≠ t0.display_text →
      (((Label.new t0).set_text t1).paint sz).2.getLast?
        ≠ some (PaintOp.drawText t1.display_text ⟨LABEL_X_PADDING, 0⟩)) := by
  refine ⟨rfl, rfl, ?_, ?_⟩
  · simp [Label.new, Label.set_text, Label.paint, RawLabel.paint,
      RawLabel.new, RawLabel.set_text, TextLayout.set_text]
  · intro h
    simp [Label.new, Label.set_text, Label.paint, RawLabel.paint,
      RawLabel.new, RawLabel.set_text, TextLayout.set_text]
    exact fun heq => h heq.symm

/-- Witness for C6: after constructing with "a" and `set_text` to "b", paint
warns and the drawn string is still "a", not "b". -/
theorem label_stale_text_paint_witness :
    (((Label.new (LabelText.fromStr "a")).set_text
        (LabelText.fromStr "b")).paint ⟨10, 10⟩).2.getLast?
      ≠ some (PaintOp.drawText (LabelText.fromStr "b").display_text
          ⟨LABEL_X_PADDING, 0⟩) :=
  (label_stale_text_paint (LabelText.fromStr "a") (LabelText.fromStr "b")
    ⟨10, 10⟩).2.2.2 (by decide)

/-- C7: painting a `RawLabel` in clip mode records exactly a clip to the
widget's painted size followed by the text draw, so the clip op precedes the
text-draw op; in every mode the text is drawn at the padded origin
`(LABEL_X_PADDING, 0)` as the final recorded operation. -/
theorem raw_label_paint_spec (s : RawLabel) (sz : Size) :
    (s.line_break_mode = LineBreaking.Clip →
      s.paint sz = [PaintOp.clip sz.to_rect,
        PaintOp.drawText s.layout.text ⟨LABEL_X_PADDING, 0⟩]) ∧
    (s.paint sz).getLast?
      = some (PaintOp.drawText s.layout.text ⟨LABEL_X_PADDING, 0⟩) := by
  constructor
  · intro h
    simp [RawLabel.paint, h]
  · cases hm : s.line_break_mode <;> simp [RawLabel.paint, hm]

/-- Witness for C7: a clip-mode label records the clip op (at the painted
size) strictly before the draw op. -/
theorem raw_label_paint_witness :
    sClip.paint ⟨20, 10⟩ = [PaintOp.clip (Size.to_rect ⟨20, 10⟩),
      PaintOp.drawText sClip.layout.text ⟨LABEL_X_PADDING, 0⟩] :=
  (raw_label_paint_spec sClip ⟨20, 10⟩).1 rfl

/-- C8: `get_child_at_pos` returns `none` exactly when no child's cached
layout rectangle contains the point; any returned child is a member whose
rectangle contains the point; and when the children split as
`pre ++ c :: post` with no hit in `pre` and a hit at `c`, the first such
child `c` is returned (first match in traversal order wins). -/
theorem get_child_at_pos_spec (children : List WidgetRef) (pos : Point) :
    (get_child_at_pos children pos = none ↔
      ∀ c ∈ children, c.state.layout_rect.contains pos = false) ∧
    (∀ c, get_child_at_pos children pos = some c →
      c ∈ children ∧ c.state.layout_rect.contains pos = true) ∧
    (∀ pre c post, children = pre ++ c :: post →
      (∀ p ∈ pre, p.state.layout_rect.contains pos = false) →
      c.state.layout_rect.contains pos = true →
      get_child_at_pos children pos = some c) := by
  refine ⟨?_, ?_, ?_⟩
  · simp [get_child_at_pos, List.find?_eq_none]
  · intro c h
    have h1 := List.mem_of_find?_eq_some h
    have h2 := List.find?_some h
    exact ⟨h1, by simpa using h2⟩
  · intro pre c post hch hpre hc
    subst hch
    induction pre with
    | nil => simp [get_child_at_pos, List.find?_cons, hc]
    | cons a rest ih =>
        have ha : a.state.layout_rect.contains pos = false :=
          hpre a (List.mem_cons_self a rest)
        have ih2 := ih (fun p hp => hpre p (List.mem_cons_of_mem a hp))
        simpa [get_child_at_pos, List.find?_cons, ha] using ih2

/-- Witness for C8: with a non-containing child first and two overlapping
containing children after it, the first containing child in traversal order
is returned. -/
theorem get_child_at_pos_witness :
    get_child_at_pos [cOut, cA, cB] p7 = some cA :=
  (get_child_at_pos_spec [cOut, cA, cB] p7).2.2 [cOut] cA [cB] rfl
    (by intro p hp
        simp only [List.mem_singleton] at hp
        subst hp
        rfl)
    (by rfl)

/-- C9: with the disabled flag set, `set_text_color` updates only the stored
default color and leaves the text layout's cached color unchanged; lifecycle
events other than `DisabledChanged` never touch the layout color; and
`DisabledChanged` sets it to the disabled theme key or restores the stored
default, requesting a re-layout. -/
theorem raw_label_disabled_color_spec (s : RawLabel) (c : KeyOrValue)
    (h : s.disabled = true) :
    (s.set_text_color c).layout.color = s.layout.color ∧
    (s.set_text_color c).default_text_color = c ∧
    ((s.lifecycle LifeCycle.Other).1.layout.color = s.layout.color ∧
      (s.lifecycle LifeCycle.Other).2 = false) ∧
    (∀ d, (s.lifecycle (LifeCycle.DisabledChanged d)).1.layout.color
        = (if d then KeyOrValue.Key ThemeKey.DISABLED_TEXT_COLOR
           else s.default_text_color) ∧
      (s.lifecycle (LifeCycle.DisabledChanged d)).2 = true) := by
  refine ⟨?_, ?_, ⟨rfl, rfl⟩, ?_⟩
  · simp [RawLabel.set_text_color, h]
  · simp [RawLabel.set_text_color, h]
  · intro d
    cases d <;> simp [RawLabel.lifecycle, TextLayout.set_text_color]

/-- Witness for C9: on a disabled label, setting a concrete text color leaves
the layout's cached color at its old value. -/
theorem raw_label_disabled_color_witness :
    (sDis.set_text_color (KeyOrValue.Concrete ⟨3⟩)).layout.color
      = sDis.layout.color :=
  (raw_label_disabled_color_spec sDis (KeyOrValue.Concrete ⟨3⟩) rfl).1

/-- C10: `Label::new` seeds the inner `RawLabel` with the resolved display
text and clears the stale-text flag, so an immediate paint emits no
diagnostic and draws the constructed text, and `text()` returns that same
string. -/
theorem label_new_paint_spec (t : LabelText) (sz : Size) :
    (Label.new t).text_should_be_updated = false ∧
    (Label.new t).label.layout.text = t.display_text ∧
    ((Label.new t).paint sz).1 = false ∧
    ((Label.new t).paint sz).2.getLast?
      = some (PaintOp.drawText t.display_text ⟨LABEL_X_PADDING, 0⟩) ∧
    (Label.new t).getText = t.display_text := by
  refine ⟨rfl, rfl, rfl, ?_, rfl⟩
  simp [Label.new, Label.paint, Label.getText, RawLabel.paint, RawLabel.new,
    RawLabel.set_text, TextLayout.set_text]

end Masonry
